import Mathlib

/-!
Verification of the T5 XFile (FastFile) deserializer core against its
natural-language specification.

The development shallowly embeds the stream-oriented graph-reconstruction
engine of the repository:

* the stream cursor over the inflated payload (`XStream`), with reads
  modelled as explicit state passing in an error monad
  (`DeM α = XStream → Except XErr (α × XStream)`);
* the pointer-token resolution (`convert_offset_to_ptr`, from
  `src/main.rs`);
* the seek-and-restore primitive (`seek_and`, from `src/main.rs`; every
  in-tree caller passes `SeekFrom::Start`, so only that form is embedded);
* the generic primitive readers (`Ptr32::xfile_into`, `Ptr32::xfile_get`,
  the four fat-pointer `to_vec`s, `Ptr32Array`/`Ptr32ArrayConst::to_vec`,
  `XString::xfile_into` with `file_read_string`);
* the script-string table lookup (`ScriptString::to_string` from
  `src/lib.rs`) and the weapon `hide_tags` conversion that consumes it
  (`t5-xfile-defs/src/weapon.rs`);
* the header-magic validation (`XFileHeader::magic_is_valid` from
  `src/lib.rs`) and the asset-type dispatcher
  (`XAssetRaw::xfile_deserialize_into` from `src/xasset.rs`).

Modelling conventions, stated once here and referenced from the
definitions' doc comments:

* Machine integers are `Nat`; `u32` subtraction underflow and addition
  overflow (panics in a debug build) are explicit error outcomes.
* Rust panics (failed `unwrap`, failed `assert!`) and `Result` errors are
  both values of `XErr`; panics propagate outward like errors, since a
  panic aborts the pass.
* The byte source is in-memory (the spec holds the inflated payload fully
  in memory), so the `std::io` error paths of `stream_position`/`seek`
  never fire; `.ok().unwrap_or_default()` combinators that only catch
  those `std::io` errors therefore disappear in the embedding, while the
  panics raised inside the closures still propagate.
* Rust `String`s produced by byte-level reads are kept as byte lists
  (lossy UTF-8 decoding is not modelled); the already-built script-string
  table is a `List String`.
-/

/-- The closed asset-type enum from `src/xasset.rs` (`XAssetType`),
45 variants with discriminants 0x00..0x2C. -/
inductive XAssetType where
  | XMODELPIECES
  | PHYSPRESET
  | PHYSCONSTRAINTS
  | DESTRUCTIBLEDEF
  | XANIMPARTS
  | XMODEL
  | MATERIAL
  | TECHNIQUE_SET
  | IMAGE
  | SOUND
  | SOUND_PATCH
  | CLIPMAP
  | CLIPMAP_PVS
  | COMWORLD
  | GAMEWORLD_SP
  | GAMEWORLD_MP
  | MAP_ENTS
  | GFXWORLD
  | LIGHT_DEF
  | UI_MAP
  | FONT
  | MENULIST
  | MENU
  | LOCALIZE_ENTRY
  | WEAPON
  | WEAPONDEF
  | WEAPON_VARIANT
  | SNDDRIVER_GLOBALS
  | FX
  | IMPACT_FX
  | AITYPE
  | MPTYPE
  | MPBODY
  | MPHEAD
  | CHARACTER
  | XMODELALIAS
  | RAWFILE
  | STRINGTABLE
  | PACKINDEX
  | XGLOBALS
  | DDL
  | GLASSES
  | EMBLEMSET
  | STRING
  | ASSETLIST
deriving DecidableEq, Repr

/-- Error outcomes of the embedded deserializer.  `panic...` constructors
model Rust panics (which abort the pass); the remaining constructors model
the library's `ErrorKind` values (`src/lib.rs`).  The `where_`/offset
bookkeeping of `Error::new` is not modelled. -/
inductive XErr where
  /-- Panic of `read_exact`/`bincode` hitting end of stream (`unwrap` panic). -/
  | panicReadPastEnd
  /-- Underflow of `offset - 1` on `u32` with `offset = 0` (debug-build panic in
  `convert_offset_to_ptr`). -/
  | panicUnderflow
  /-- Overflow of the `u32` additions while forming the linear offset. -/
  | panicAddOverflow
  /-- the `assert!(off <= stream_len)` in `seek_and` failing. -/
  | panicSeekOutOfBounds
  /-- The `ErrorKind::BadScriptString(i)` error. -/
  | badScriptString (i : Nat)
  /-- The `ErrorKind::BadHeaderMagic` error. -/
  | badHeaderMagic
  /-- The `ErrorKind::InvalidXAssetType(v)` error. -/
  | invalidXAssetType (v : Nat)
  /-- The `ErrorKind::UnusedXAssetType(t)` error. -/
  | unusedXAssetType (t : XAssetType)
deriving DecidableEq, Repr

/-- The stream cursor: the inflated payload as a byte list plus the
current position. -/
structure XStream where
  data : List Nat
  pos : Nat
deriving DecidableEq, Repr

/-- The deserialization monad: explicit state passing over `XStream`,
failing with `XErr`. -/
def DeM (α : Type) : Type := XStream → Except XErr (α × XStream)

/-- Read one byte at the cursor and advance (the body of `read_exact`
with a 1-byte buffer); reading past the end is a panic. -/
def readByte : DeM Nat := fun s =>
  match s.data.get? s.pos with
  | some b => .ok (b, { s with pos := s.pos + 1 })
  | none => .error .panicReadPastEnd

/-- Embedding of `convert_offset_to_ptr` from `src/main.rs`:
`block = (offset − 1) >> 29`, `off = (offset − 1) & 0x1FFFFFFF`,
`start = block_sizes[0..block].sum()`, result `(block, start + off)`.
The `u32` subtraction underflows for `offset = 0` and the additions can
overflow; both would panic and are explicit error outcomes. -/
def convert_offset_to_ptr (blockSizes : List Nat) (offset : Nat) :
    Except XErr (Nat × Nat) :=
  if offset = 0 then .error .panicUnderflow
  else
    let block := (offset - 1) >>> 29
    let off := (offset - 1) &&& 0x1FFFFFFF
    let start := (blockSizes.take block).sum
    if start + off < 4294967296 then .ok (block, start + off)
    else .error .panicAddOverflow

/-- Embedding of `SeekAnd::seek_and` from `src/main.rs`, for the `SeekFrom::Start`
form (the only one any in-tree caller uses): save the position; if the
target is neither inline sentinel, resolve it with
`convert_offset_to_ptr`, assert the resolved offset is within the
stream, and seek there; run the body; if the target was not a sentinel,
seek back to the saved position. -/
def seek_and {α : Type} (blockSizes : List Nat) (target : Nat)
    (f : DeM α) : DeM α := fun s =>
  let pos := s.pos
  if target ≠ 0xFFFFFFFF ∧ target ≠ 0xFFFFFFFE then
    match convert_offset_to_ptr blockSizes target with
    | .error e => .error e
    | .ok (_, off) =>
      if off ≤ s.data.length then
        match f { s with pos := off } with
        | .ok (t, s1) => .ok (t, { s1 with pos := pos })
        | .error e => .error e
      else .error .panicSeekOutOfBounds
  else
    f s

/-- Embedding of `Ptr32::xfile_into` from `src/main.rs`, with the guard chain kept
exactly as written: `0x00000000` returns `None`; a token other than
`0xFFFFFFFF` returns `None` ("ignoring offset"); then a token other than
`0xFFFFFFFE` returns `None`; only past all three guards would the
`seek_and` read and the recursive conversion run. -/
def ptr32_xfile_into {α β : Type} (blockSizes : List Nat) (elem : DeM α)
    (conv : α → DeM β) (v : Nat) : DeM (Option β) := fun s =>
  if v = 0 then .ok (none, s)
  else if v ≠ 0xFFFFFFFF then .ok (none, s)
  else if v ≠ 0xFFFFFFFE then .ok (none, s)
  else
    match seek_and blockSizes v elem s with
    | .error e => .error e
    | .ok (t, s1) =>
      match conv t s1 with
      | .error e => .error e
      | .ok (u, s2) => .ok (some u, s2)

/-- Embedding of `Ptr32::xfile_get` from `src/main.rs`: `0x00000000` returns `None`;
a token other than `0xFFFFFFFF` returns `None` ("ignoring offset");
`0xFFFFFFFF` reads inline through `seek_and`. -/
def ptr32_xfile_get {α : Type} (blockSizes : List Nat) (elem : DeM α)
    (v : Nat) : DeM (Option α) := fun s =>
  if v = 0 then .ok (none, s)
  else if v ≠ 0xFFFFFFFF then .ok (none, s)
  else
    match seek_and blockSizes v elem s with
    | .error e => .error e
    | .ok (t, s1) => .ok (some t, s1)

/-- The element loop shared by every `to_vec`: deserialize `n` elements
in sequence, propagating the first failure (each failed `unwrap` is a
panic). -/
def readN {α : Type} (elem : DeM α) : Nat → DeM (List α)
  | 0 => fun s => .ok ([], s)
  | n + 1 => fun s =>
    match elem s with
    | .error e => .error e
    | .ok (a, s1) =>
      match readN elem n s1 with
      | .error e => .error e
      | .ok (as, s2) => .ok (a :: as, s2)

/-- Embedding of `FatPointerCountFirstU16::to_vec` from `src/main.rs`: a null pointer
yields an empty vector; otherwise `seek_and` to the token and read
`size` elements. -/
def fatPointerCountFirstU16_to_vec {α : Type} (blockSizes : List Nat)
    (size : Nat) (p : Nat) (elem : DeM α) : DeM (List α) := fun s =>
  if p = 0 then .ok ([], s)
  else seek_and blockSizes p (readN elem size) s

/-- Embedding of `FatPointerCountFirstU32::to_vec` from `src/main.rs` (same body as
the `u16` variant; only the count's wire width differs). -/
def fatPointerCountFirstU32_to_vec {α : Type} (blockSizes : List Nat)
    (size : Nat) (p : Nat) (elem : DeM α) : DeM (List α) := fun s =>
  if p = 0 then .ok ([], s)
  else seek_and blockSizes p (readN elem size) s

/-- Embedding of `FatPointerCountLastU16::to_vec` from `src/main.rs`. -/
def fatPointerCountLastU16_to_vec {α : Type} (blockSizes : List Nat)
    (size : Nat) (p : Nat) (elem : DeM α) : DeM (List α) := fun s =>
  if p = 0 then .ok ([], s)
  else seek_and blockSizes p (readN elem size) s

/-- Embedding of `FatPointerCountLastU32::to_vec` from `src/main.rs`. -/
def fatPointerCountLastU32_to_vec {α : Type} (blockSizes : List Nat)
    (size : Nat) (p : Nat) (elem : DeM α) : DeM (List α) := fun s =>
  if p = 0 then .ok ([], s)
  else seek_and blockSizes p (readN elem size) s

/-- Embedding of `Ptr32Array::to_vec` from `src/main.rs` (externally-supplied count). -/
def ptr32Array_to_vec {α : Type} (blockSizes : List Nat) (size : Nat)
    (p : Nat) (elem : DeM α) : DeM (List α) := fun s =>
  if p = 0 then .ok ([], s)
  else seek_and blockSizes p (readN elem size) s

/-- Embedding of `Ptr32ArrayConst::<T, N>::to_vec` from `src/main.rs` (count fixed at
build time). -/
def ptr32ArrayConst_to_vec {α : Type} (blockSizes : List Nat) (N : Nat)
    (p : Nat) (elem : DeM α) : DeM (List α) := fun s =>
  if p = 0 then .ok ([], s)
  else seek_and blockSizes p (readN elem N) s

/-- The loop of `file_read_string` from `src/main.rs`, with fuel: read
bytes until a NUL, return the bytes before the NUL; hitting end of
stream first is a `read_exact` panic.  The fuel `s.data.length - s.pos`
supplied by `file_read_string` is enough for every reachable iteration,
and the zero-fuel case coincides with the end-of-stream panic. -/
def file_read_string_aux : Nat → DeM (List Nat)
  | 0 => fun _ => .error .panicReadPastEnd
  | fuel + 1 => fun s =>
    match s.data.get? s.pos with
    | none => .error .panicReadPastEnd
    | some c =>
      let s1 : XStream := { s with pos := s.pos + 1 }
      if c = 0 then .ok ([], s1)
      else
        match file_read_string_aux fuel s1 with
        | .error e => .error e
        | .ok (bs, s2) => .ok (c :: bs, s2)

/-- Embedding of `file_read_string` from `src/main.rs`: NUL-terminated byte string at
the cursor. -/
def file_read_string : DeM (List Nat) := fun s =>
  file_read_string_aux (s.data.length - s.pos) s

/-- Embedding of `XString::xfile_into` from `src/main.rs`: `0x00000000` yields the
empty string; `0xFFFFFFFF` reads a NUL-terminated string through
`seek_and`; any other token (including `0xFFFFFFFE`) prints
"ignoring offset" and yields the empty string. -/
def xstring_xfile_into (blockSizes : List Nat) (v : Nat) :
    DeM (List Nat) := fun s =>
  if v = 0 then .ok ([], s)
  else if v = 0xFFFFFFFF then
    seek_and blockSizes v file_read_string s
  else .ok ([], s)

/-- Embedding of `ScriptString::to_string` from `src/lib.rs`: look the 16-bit handle
up in the already-built script-string table; a missing entry is
`ErrorKind::BadScriptString(i)` carrying the offending index.  (The
`where_`/offset fields of `Error::new` are not modelled.) -/
def script_string_to_string (strings : List String) (i : Nat) :
    Except XErr String :=
  match strings.get? i with
  | some s => .ok s
  | none => .error (.badScriptString i)

/-- The `hide_tags` conversion inside
`WeaponVariantDefRaw::xfile_deserialize_into`
(`t5-xfile-defs/src/weapon.rs` lines 141-146): each raw `ScriptString`
is dereferenced with `to_string` and a failed lookup is replaced by the
default empty string via `unwrap_or_default`. -/
def hide_tags_convert (strings : List String) (tags : List Nat) :
    List String :=
  tags.map fun i =>
    match script_string_to_string strings i with
    | .ok s => s
    | .error _ => ""

/-- Embedding of `XFileHeader::magic_is_valid` from `src/lib.rs` (the same predicate
as `xfile_header_magic_is_valid` in `src/main.rs`), over the 8 magic
bytes: `I W f f {u|0} 1 0 0`. -/
def magic_is_valid (magic : List Nat) : Bool :=
  magic.getD 0 0 == 73
    && magic.getD 1 0 == 87
    && magic.getD 2 0 == 102
    && magic.getD 3 0 == 102
    && (magic.getD 4 0 == 117 || magic.getD 4 0 == 48)
    && magic.getD 5 0 == 49
    && magic.getD 6 0 == 48
    && magic.getD 7 0 == 48

/-- Modelled from the spec: the header-validation step of the container
loader, which is in the crate's `deserializer` module and not among the
provided sources; per the spec ("Magic with any of the 8 bytes mutated →
`BadHeaderMagic`"), it rejects a header whose magic fails
`magic_is_valid` (the in-tree predicate) with `ErrorKind::BadHeaderMagic`
and accepts it otherwise. -/
def validate_header_magic (magic : List Nat) : Except XErr Unit :=
  if magic_is_valid magic then .ok () else .error .badHeaderMagic

/-- Embedding of `num::FromPrimitive::from_u32` for `XAssetType` as derived in
`src/xasset.rs`: the discriminants 0x00..0x2C map to the variants in
declaration order; anything else is `None`. -/
def xassetTypeFromU32 (v : Nat) : Option XAssetType :=
  match v with
  | 0x00 => some .XMODELPIECES
  | 0x01 => some .PHYSPRESET
  | 0x02 => some .PHYSCONSTRAINTS
  | 0x03 => some .DESTRUCTIBLEDEF
  | 0x04 => some .XANIMPARTS
  | 0x05 => some .XMODEL
  | 0x06 => some .MATERIAL
  | 0x07 => some .TECHNIQUE_SET
  | 0x08 => some .IMAGE
  | 0x09 => some .SOUND
  | 0x0A => some .SOUND_PATCH
  | 0x0B => some .CLIPMAP
  | 0x0C => some .CLIPMAP_PVS
  | 0x0D => some .COMWORLD
  | 0x0E => some .GAMEWORLD_SP
  | 0x0F => some .GAMEWORLD_MP
  | 0x10 => some .MAP_ENTS
  | 0x11 => some .GFXWORLD
  | 0x12 => some .LIGHT_DEF
  | 0x13 => some .UI_MAP
  | 0x14 => some .FONT
  | 0x15 => some .MENULIST
  | 0x16 => some .MENU
  | 0x17 => some .LOCALIZE_ENTRY
  | 0x18 => some .WEAPON
  | 0x19 => some .WEAPONDEF
  | 0x1A => some .WEAPON_VARIANT
  | 0x1B => some .SNDDRIVER_GLOBALS
  | 0x1C => some .FX
  | 0x1D => some .IMPACT_FX
  | 0x1E => some .AITYPE
  | 0x1F => some .MPTYPE
  | 0x20 => some .MPBODY
  | 0x21 => some .MPHEAD
  | 0x22 => some .CHARACTER
  | 0x23 => some .XMODELALIAS
  | 0x24 => some .RAWFILE
  | 0x25 => some .STRINGTABLE
  | 0x26 => some .PACKINDEX
  | 0x27 => some .XGLOBALS
  | 0x28 => some .DDL
  | 0x29 => some .GLASSES
  | 0x2A => some .EMBLEMSET
  | 0x2B => some .STRING
  | 0x2C => some .ASSETLIST
  | _ => none

/-- The `match asset_type` of `XAssetRaw::xfile_deserialize_into`
(`src/xasset.rs`): each variant with an arm invokes the schema reader
for that variant (here the supplied `reader` family, standing for
`asset_data.cast::<...Raw>().xfile_deserialize_into`); the `_`
fall-through returns `ErrorKind::UnusedXAssetType` carrying the
variant. -/
def xasset_dispatch_type {α : Type} (reader : XAssetType → Except XErr α)
    (t : XAssetType) : Except XErr (XAssetType × α) :=
  match t with
  | .PHYSPRESET => (reader .PHYSPRESET).map fun a => (.PHYSPRESET, a)
  | .PHYSCONSTRAINTS => (reader .PHYSCONSTRAINTS).map fun a => (.PHYSCONSTRAINTS, a)
  | .DESTRUCTIBLEDEF => (reader .DESTRUCTIBLEDEF).map fun a => (.DESTRUCTIBLEDEF, a)
  | .XANIMPARTS => (reader .XANIMPARTS).map fun a => (.XANIMPARTS, a)
  | .XMODEL => (reader .XMODEL).map fun a => (.XMODEL, a)
  | .MATERIAL => (reader .MATERIAL).map fun a => (.MATERIAL, a)
  | .TECHNIQUE_SET => (reader .TECHNIQUE_SET).map fun a => (.TECHNIQUE_SET, a)
  | .IMAGE => (reader .IMAGE).map fun a => (.IMAGE, a)
  | .SOUND => (reader .SOUND).map fun a => (.SOUND, a)
  | .SOUND_PATCH => (reader .SOUND_PATCH).map fun a => (.SOUND_PATCH, a)
  | .CLIPMAP => (reader .CLIPMAP).map fun a => (.CLIPMAP, a)
  | .CLIPMAP_PVS => (reader .CLIPMAP_PVS).map fun a => (.CLIPMAP_PVS, a)
  | .COMWORLD => (reader .COMWORLD).map fun a => (.COMWORLD, a)
  | .GAMEWORLD_SP => (reader .GAMEWORLD_SP).map fun a => (.GAMEWORLD_SP, a)
  | .GAMEWORLD_MP => (reader .GAMEWORLD_MP).map fun a => (.GAMEWORLD_MP, a)
  | .MAP_ENTS => (reader .MAP_ENTS).map fun a => (.MAP_ENTS, a)
  | .GFXWORLD => (reader .GFXWORLD).map fun a => (.GFXWORLD, a)
  | .LIGHT_DEF => (reader .LIGHT_DEF).map fun a => (.LIGHT_DEF, a)
  | .FONT => (reader .FONT).map fun a => (.FONT, a)
  | .MENULIST => (reader .MENULIST).map fun a => (.MENULIST, a)
  | .MENU => (reader .MENU).map fun a => (.MENU, a)
  | .LOCALIZE_ENTRY => (reader .LOCALIZE_ENTRY).map fun a => (.LOCALIZE_ENTRY, a)
  | .WEAPON => (reader .WEAPON).map fun a => (.WEAPON, a)
  | .SNDDRIVER_GLOBALS => (reader .SNDDRIVER_GLOBALS).map fun a => (.SNDDRIVER_GLOBALS, a)
  | .FX => (reader .FX).map fun a => (.FX, a)
  | .IMPACT_FX => (reader .IMPACT_FX).map fun a => (.IMPACT_FX, a)
  | .RAWFILE => (reader .RAWFILE).map fun a => (.RAWFILE, a)
  | .STRINGTABLE => (reader .STRINGTABLE).map fun a => (.STRINGTABLE, a)
  | .PACKINDEX => (reader .PACKINDEX).map fun a => (.PACKINDEX, a)
  | .XGLOBALS => (reader .XGLOBALS).map fun a => (.XGLOBALS, a)
  | .DDL => (reader .DDL).map fun a => (.DDL, a)
  | .GLASSES => (reader .GLASSES).map fun a => (.GLASSES, a)
  | .EMBLEMSET => (reader .EMBLEMSET).map fun a => (.EMBLEMSET, a)
  | _ => .error (.unusedXAssetType t)

/-- Embedding of `XAssetRaw::xfile_deserialize_into` (`src/xasset.rs`): decode the
`asset_type` word with `from_u32`, failing with
`ErrorKind::InvalidXAssetType` if it is not a defined variant, then
dispatch on the variant. -/
def xasset_deserialize_into {α : Type} (reader : XAssetType → Except XErr α)
    (assetType : Nat) : Except XErr (XAssetType × α) :=
  match xassetTypeFromU32 assetType with
  | none => .error (.invalidXAssetType assetType)
  | some t => xasset_dispatch_type reader t

/-- The variants of `XAssetType` that have an arm in the dispatcher's
`match` — i.e. the asset kinds this version emits.  (Spec-side list,
compared with the dispatcher's behavior in the C7 theorem.) -/
def xassetTypeIsUsed : XAssetType → Bool
  | .XMODELPIECES => false
  | .UI_MAP => false
  | .WEAPONDEF => false
  | .WEAPON_VARIANT => false
  | .AITYPE => false
  | .MPTYPE => false
  | .MPBODY => false
  | .MPHEAD => false
  | .CHARACTER => false
  | .XMODELALIAS => false
  | .STRING => false
  | .ASSETLIST => false
  | _ => true

/-- Equality of `Except` results is decidable; used to evaluate the
embedded readers on concrete inputs. -/
instance instDecEqExcept {e a : Type} [DecidableEq e] [DecidableEq a] :
    DecidableEq (Except e a) := fun x y =>
  match x, y with
  | .error u, .error w =>
    if h : u = w then .isTrue (by rw [h])
    else .isFalse (by intro hc; injection hc; exact h (by assumption))
  | .ok u, .ok w =>
    if h : u = w then .isTrue (by rw [h])
    else .isFalse (by intro hc; injection hc; exact h (by assumption))
  | .error _, .ok _ => .isFalse (by intro hc; exact Except.noConfusion hc)
  | .ok _, .error _ => .isFalse (by intro hc; exact Except.noConfusion hc)

/-- Spec-side reading of "the sum of the block sizes of all blocks with
index less than `block`", compared with the source's slice-sum. -/
lemma take_sum_eq_range_sum (l : List Nat) (k : Nat) :
    (l.take k).sum = ∑ i ∈ Finset.range k, l.getD i 0 := by
  induction k with
  | zero => simp
  | succ k ih =>
    rw [List.take_succ, List.sum_append, ih, Finset.sum_range_succ]
    cases h : l[k]? <;> simp [List.getD, h]

/-- C3: for every non-null, non-sentinel 32-bit pointer token `v` (with
the linear offset fitting in `u32`, as the debug build's overflow panic
demands), resolution yields `block = (v − 1) >> 29` and the linear
offset `sum(block_sizes[0..block]) + ((v − 1) & 0x1FFFFFFF)`. -/
theorem convert_offset_to_ptr_decodes (blockSizes : List Nat) (v : Nat)
    (hv32 : v < 4294967296) (hv : v ≠ 0)
    (hs1 : v ≠ 0xFFFFFFFF) (hs2 : v ≠ 0xFFFFFFFE)
    (hfit : (∑ i ∈ Finset.range ((v - 1) >>> 29), blockSizes.getD i 0)
              + ((v - 1) &&& 0x1FFFFFFF) < 4294967296) :
    convert_offset_to_ptr blockSizes v =
      .ok ((v - 1) >>> 29,
        (∑ i ∈ Finset.range ((v - 1) >>> 29), blockSizes.getD i 0)
          + ((v - 1) &&& 0x1FFFFFFF)) := by
  unfold convert_offset_to_ptr
  rw [if_neg hv]
  dsimp only
  rw [take_sum_eq_range_sum]
  rw [if_pos hfit]

theorem convert_offset_to_ptr_decodes_witness :
    convert_offset_to_ptr [10, 20, 30, 40, 50, 60, 70] 0x40000007 =
      .ok (2, 36) := by
  rw [convert_offset_to_ptr_decodes [10, 20, 30, 40, 50, 60, 70]
    0x40000007 (by decide) (by decide) (by decide) (by decide) (by decide)]
  decide

/-- C2: a balanced `seek_and` — target is an absolute token, not an
inline sentinel, and the resolved offset passes the bounds assertion —
leaves the cursor where it found it: the final position equals the
initial position.  The body's result `v` is arbitrary, so in particular
it may be an error value (`Result::Err`) that `f` reports; restoration
happens regardless. -/
theorem seek_and_balanced_restores {α : Type} (blockSizes : List Nat)
    (target : Nat) (f : DeM α) (s s1 : XStream) (v : α) (blk off : Nat)
    (h1 : target ≠ 0xFFFFFFFF) (h2 : target ≠ 0xFFFFFFFE)
    (hres : convert_offset_to_ptr blockSizes target = .ok (blk, off))
    (hlen : off ≤ s.data.length)
    (hf : f { s with pos := off } = .ok (v, s1)) :
    seek_and blockSizes target f s = .ok (v, { s1 with pos := s.pos })
      ∧ ({ s1 with pos := s.pos } : XStream).pos = s.pos := by
  refine ⟨?_, rfl⟩
  unfold seek_and
  rw [if_pos ⟨h1, h2⟩, hres]
  dsimp only
  rw [if_pos hlen, hf]

theorem seek_and_balanced_restores_witness :
    seek_and [4, 0, 0, 0, 0, 0, 0] 2
        (fun st => .ok ((Except.error 3 : Except Nat Nat),
          { st with pos := st.pos + 1 })) ⟨[9, 9, 9, 9], 2⟩ =
      .ok (Except.error 3, ⟨[9, 9, 9, 9], 2⟩) :=
  (seek_and_balanced_restores [4, 0, 0, 0, 0, 0, 0] 2 _
    ⟨[9, 9, 9, 9], 2⟩ ⟨[9, 9, 9, 9], 2⟩ (Except.error 3) 0 1
    (by decide) (by decide) (by decide) (by decide) rfl).1

/-- C1 (code behavior at the divergence): `Ptr32::xfile_into` returns an
absent value for *every* token and never touches the stream — once the
`!= 0xFFFFFFFF` early-return has not fired the token is `0xFFFFFFFF`, so
the `!= 0xFFFFFFFE` early-return always fires, making the inline
`seek_and` read unreachable; non-sentinel tokens were already dropped
with "ignoring offset".  The claim's sentinel and absolute cases
(present values) therefore never happen. -/
theorem ptr32_xfile_into_always_absent :
    ∀ (α β : Type) (blockSizes : List Nat) (elem : DeM α)
      (conv : α → DeM β) (v : Nat) (s : XStream),
      ptr32_xfile_into blockSizes elem conv v s = .ok (none, s) := by
  intro α β blockSizes elem conv v s
  unfold ptr32_xfile_into
  by_cases h0 : v = 0
  · rw [if_pos h0]
  · rw [if_neg h0]
    by_cases h1 : v = 0xFFFFFFFF
    · rw [if_neg (by simp [h1]), if_pos (by simp [h1])]
    · rw [if_pos h1]

/-- C4 (counterexample): the two inline sentinels are *not* treated the
same by every primitive reader.  On the stream `[97, 0]` ("a\x00") at
position 0, `XString::xfile_into` with token `0xFFFFFFFF` reads the
inline string and advances, while with token `0xFFFFFFFE` it hits the
"ignoring offset" arm and returns the empty string without reading. -/
theorem xstring_sentinels_differ :
    xstring_xfile_into [52, 0, 0, 0, 0, 0, 0] 0xFFFFFFFE ⟨[97, 0], 0⟩ ≠
      xstring_xfile_into [52, 0, 0, 0, 0, 0, 0] 0xFFFFFFFF ⟨[97, 0], 0⟩ := by
  decide

/-- C4 (amended): `seek_and` itself treats `0xFFFFFFFE` exactly like
`0xFFFFFFFF` (no seek, no restore — an inline read at the current
position), so the readers that pass their raw token straight to
`seek_and` — the four fat-pointer readers and the pointer-array
readers — behave identically for the two tokens; but
`XString::xfile_into` dispatches inline only on `0xFFFFFFFF`, returning
the empty string with no read for `0xFFFFFFFE`, and `Ptr32::xfile_get`
likewise returns `None` for `0xFFFFFFFE`. -/
theorem inline_sentinels_agree_in_seek_and :
    (∀ (α : Type) (blockSizes : List Nat) (f : DeM α) (s : XStream),
      seek_and blockSizes 0xFFFFFFFE f s = f s
        ∧ seek_and blockSizes 0xFFFFFFFF f s = f s)
    ∧ (∀ (α : Type) (blockSizes : List Nat) (size : Nat) (elem : DeM α)
        (s : XStream),
      fatPointerCountFirstU16_to_vec blockSizes size 0xFFFFFFFE elem s
          = fatPointerCountFirstU16_to_vec blockSizes size 0xFFFFFFFF elem s
        ∧ fatPointerCountFirstU32_to_vec blockSizes size 0xFFFFFFFE elem s
          = fatPointerCountFirstU32_to_vec blockSizes size 0xFFFFFFFF elem s
        ∧ fatPointerCountLastU16_to_vec blockSizes size 0xFFFFFFFE elem s
          = fatPointerCountLastU16_to_vec blockSizes size 0xFFFFFFFF elem s
        ∧ fatPointerCountLastU32_to_vec blockSizes size 0xFFFFFFFE elem s
          = fatPointerCountLastU32_to_vec blockSizes size 0xFFFFFFFF elem s
        ∧ ptr32Array_to_vec blockSizes size 0xFFFFFFFE elem s
          = ptr32Array_to_vec blockSizes size 0xFFFFFFFF elem s
        ∧ ptr32ArrayConst_to_vec blockSizes size 0xFFFFFFFE elem s
          = ptr32ArrayConst_to_vec blockSizes size 0xFFFFFFFF elem s)
    ∧ (∀ (blockSizes : List Nat) (s : XStream),
      xstring_xfile_into blockSizes 0xFFFFFFFE s = .ok ([], s))
    ∧ (∀ (α : Type) (blockSizes : List Nat) (elem : DeM α) (s : XStream),
      ptr32_xfile_get blockSizes elem 0xFFFFFFFE s = .ok (none, s)) := by
  have hboth : ∀ (α : Type) (blockSizes : List Nat) (f : DeM α)
      (s : XStream), seek_and blockSizes 0xFFFFFFFE f s = f s
        ∧ seek_and blockSizes 0xFFFFFFFF f s = f s := by
    intro α blockSizes f s
    constructor
    · unfold seek_and
      rw [if_neg (by simp)]
    · unfold seek_and
      rw [if_neg (by simp)]
  refine ⟨hboth, ?_, ?_, ?_⟩
  · intro α blockSizes size elem s
    unfold fatPointerCountFirstU16_to_vec fatPointerCountFirstU32_to_vec
      fatPointerCountLastU16_to_vec fatPointerCountLastU32_to_vec
      ptr32Array_to_vec ptr32ArrayConst_to_vec
    rw [if_neg (by decide), if_neg (by decide)]
    rw [(hboth (List α) blockSizes (readN elem size) s).1,
      (hboth (List α) blockSizes (readN elem size) s).2]
    exact ⟨rfl, rfl, rfl, rfl, rfl, rfl⟩
  · intro blockSizes s
    unfold xstring_xfile_into
    rw [if_neg (by decide), if_neg (by decide)]
  · intro α blockSizes elem s
    unfold ptr32_xfile_get
    rw [if_neg (by decide), if_pos (by decide)]

/-- C5: every pointer-bearing primitive reader — `Ptr32::xfile_into`,
`Ptr32::xfile_get`, the four fat-pointer `to_vec`s,
`Ptr32Array::to_vec`, `Ptr32ArrayConst::to_vec` and
`XString::xfile_into` — maps the null token `0x00000000` to an empty
vector or absent optional, leaves the stream untouched, and reports no
error. -/
theorem null_token_gives_empty_result :
    ∀ (α β : Type) (blockSizes : List Nat) (size N : Nat) (elem : DeM α)
      (conv : α → DeM β) (s : XStream),
      ptr32_xfile_into blockSizes elem conv 0 s = .ok (none, s)
      ∧ ptr32_xfile_get blockSizes elem 0 s = .ok (none, s)
      ∧ fatPointerCountFirstU16_to_vec blockSizes size 0 elem s = .ok ([], s)
      ∧ fatPointerCountFirstU32_to_vec blockSizes size 0 elem s = .ok ([], s)
      ∧ fatPointerCountLastU16_to_vec blockSizes size 0 elem s = .ok ([], s)
      ∧ fatPointerCountLastU32_to_vec blockSizes size 0 elem s = .ok ([], s)
      ∧ ptr32Array_to_vec blockSizes size 0 elem s = .ok ([], s)
      ∧ ptr32ArrayConst_to_vec blockSizes N 0 elem s = .ok ([], s)
      ∧ xstring_xfile_into blockSizes 0 s = .ok ([], s) :=
  fun _ _ _ _ _ _ _ _ => ⟨rfl, rfl, rfl, rfl, rfl, rfl, rfl, rfl, rfl⟩

/-- The element loop never produces the `u32` underflow panic when its
element reader does not. -/
lemma readN_ne_underflow {α : Type} (elem : DeM α)
    (helem : ∀ s1, elem s1 ≠ .error .panicUnderflow) :
    ∀ (n : Nat) (s : XStream), readN elem n s ≠ .error .panicUnderflow := by
  intro n
  induction n with
  | zero => intro s h; exact Except.noConfusion h
  | succ n ih =>
    intro s h
    unfold readN at h
    cases he : elem s with
    | error e =>
      simp only [he] at h
      injection h with h
      exact helem s (by rw [he, h])
    | ok a =>
      obtain ⟨a, s1⟩ := a
      simp only [he] at h
      cases hr : readN elem n s1 with
      | error e =>
        simp only [hr] at h
        injection h with h
        exact ih s1 (by rw [hr, h])
      | ok res =>
        simp only [hr] at h
        exact Except.noConfusion h

/-- Helper: `seek_and` never produces the `u32` underflow panic when its target
is nonzero and its body never does. -/
lemma seek_and_ne_underflow {α : Type} (blockSizes : List Nat)
    (target : Nat) (f : DeM α) (s : XStream) (h0 : target ≠ 0)
    (hf : ∀ s1, f s1 ≠ .error .panicUnderflow) :
    seek_and blockSizes target f s ≠ .error .panicUnderflow := by
  unfold seek_and
  by_cases hsent : target ≠ 0xFFFFFFFF ∧ target ≠ 0xFFFFFFFE
  · rw [if_pos hsent]
    unfold convert_offset_to_ptr
    rw [if_neg h0]
    dsimp only
    by_cases hfit : (blockSizes.take ((target - 1) >>> 29)).sum
        + ((target - 1) &&& 0x1FFFFFFF) < 4294967296
    · rw [if_pos hfit]
      dsimp only
      by_cases hlen : (blockSizes.take ((target - 1) >>> 29)).sum
          + ((target - 1) &&& 0x1FFFFFFF) ≤ s.data.length
      · rw [if_pos hlen]
        cases hr : f { s with
            pos := (blockSizes.take ((target - 1) >>> 29)).sum
              + ((target - 1) &&& 0x1FFFFFFF) } with
        | error e =>
          intro h
          injection h with h
          exact hf _ (by rw [hr, h])
        | ok t => intro h; simp at h
      · rw [if_neg hlen]
        intro h
        injection h with h
        exact XErr.noConfusion h
    · rw [if_neg hfit]
      intro h
      injection h with h
      exact XErr.noConfusion h
  · rw [if_neg hsent]
    exact hf s

/-- C10: the token-resolution function is only ever reached with a
nonzero token.  (a) For the token 0 the `u32` subtraction in
`convert_offset_to_ptr` would underflow (a panic, modelled as the
distinguished `panicUnderflow` outcome).  (b) `seek_and` never calls the
resolution at all for the two inline sentinels — it just runs its body
in place.  (c) `FatPointerCountFirstU16::to_vec` filters the null token
out before calling `seek_and`, so — its element reads being
underflow-free — no run of it, with any token, ever produces the
underflow panic. -/
theorem token_resolution_never_underflows :
    (∀ blockSizes, convert_offset_to_ptr blockSizes 0
      = .error .panicUnderflow)
    ∧ (∀ (α : Type) (blockSizes : List Nat) (f : DeM α) (s : XStream),
      seek_and blockSizes 0xFFFFFFFF f s = f s
        ∧ seek_and blockSizes 0xFFFFFFFE f s = f s)
    ∧ (∀ (α : Type) (blockSizes : List Nat) (size p : Nat) (elem : DeM α)
        (s : XStream),
      (∀ s1, elem s1 ≠ .error .panicUnderflow) →
      fatPointerCountFirstU16_to_vec blockSizes size p elem s
        ≠ .error .panicUnderflow) := by
  refine ⟨fun _ => rfl, ?_, ?_⟩
  · intro α blockSizes f s
    constructor
    · unfold seek_and
      rw [if_neg (by simp)]
    · unfold seek_and
      rw [if_neg (by simp)]
  · intro α blockSizes size p elem s helem
    unfold fatPointerCountFirstU16_to_vec
    by_cases hp : p = 0
    · rw [if_pos hp]
      intro h
      simp at h
    · rw [if_neg hp]
      exact seek_and_ne_underflow blockSizes p (readN elem size) s hp
        (readN_ne_underflow elem helem size)

theorem token_resolution_never_underflows_witness :
    fatPointerCountFirstU16_to_vec [8, 0, 0, 0, 0, 0, 0] 3 2
        (fun s => .ok (0, s)) ⟨[1, 2, 3], 0⟩ ≠ .error .panicUnderflow :=
  token_resolution_never_underflows.2.2 Nat [8, 0, 0, 0, 0, 0, 0] 3 2
    (fun s => .ok (0, s)) ⟨[1, 2, 3], 0⟩
    (fun _ h => Except.noConfusion h)

/-- C6 (counterexample): an out-of-range script-string dereference is
*not* fatal to the pass at the cited call site.  With the table
`["alpha"]` (length 1), `ScriptString(5)` dereferences to
`BadScriptString(5)` — but the weapon `hide_tags` conversion swallows
that error with `unwrap_or_default` and the pass continues with the
empty string. -/
theorem bad_script_string_not_fatal_in_hide_tags :
    script_string_to_string ["alpha"] 5 = .error (.badScriptString 5)
      ∧ hide_tags_convert ["alpha"] [5] = [""] :=
  ⟨rfl, rfl⟩

/-- C6 (amended): `ScriptString::to_string` itself behaves as claimed —
an index at or past the table length yields a `BadScriptString` error
recording the offending index, and an in-range index yields the i-th
table entry — but the error is only fatal if the caller propagates it
(the weapon `hide_tags` conversion instead substitutes the empty
string). -/
theorem script_string_lookup (strings : List String) (i : Nat) :
    (strings.length ≤ i →
      script_string_to_string strings i = .error (.badScriptString i))
    ∧ (∀ h : i < strings.length,
      script_string_to_string strings i = .ok (strings.get ⟨i, h⟩)) := by
  constructor
  · intro hge
    unfold script_string_to_string
    rw [List.get?_eq_none.mpr hge]
  · intro hlt
    unfold script_string_to_string
    rw [List.get?_eq_get hlt]

theorem script_string_lookup_witness :
    script_string_to_string ["alpha", "beta"] 2
        = .error (.badScriptString 2)
      ∧ script_string_to_string ["alpha", "beta"] 1 = .ok "beta" :=
  ⟨(script_string_lookup ["alpha", "beta"] 2).1 (by decide),
   (script_string_lookup ["alpha", "beta"] 1).2 (by decide)⟩

/-- Spec-side statement of the expected magic pattern
`[I, W, f, f, {u|0}, 1, 0, 0]`, byte by byte. -/
def specMagicOk (magic : List Nat) : Prop :=
  magic.getD 0 0 = 73 ∧ magic.getD 1 0 = 87 ∧ magic.getD 2 0 = 102
    ∧ magic.getD 3 0 = 102
    ∧ (magic.getD 4 0 = 117 ∨ magic.getD 4 0 = 48)
    ∧ magic.getD 5 0 = 49 ∧ magic.getD 6 0 = 48 ∧ magic.getD 7 0 = 48

instance (magic : List Nat) : Decidable (specMagicOk magic) := by
  unfold specMagicOk
  infer_instance

/-- C8: a header whose magic deviates from the expected pattern
`[I, W, f, f, {u|0}, 1, 0, 0]` in any byte is rejected with
`BadHeaderMagic`, and a header matching the pattern passes magic
validation. -/
theorem header_magic_validation (magic : List Nat) :
    (¬ specMagicOk magic →
      validate_header_magic magic = .error .badHeaderMagic)
    ∧ (specMagicOk magic → validate_header_magic magic = .ok ()) := by
  have hiff : magic_is_valid magic = true ↔ specMagicOk magic := by
    unfold magic_is_valid specMagicOk
    simp [Bool.and_eq_true, Bool.or_eq_true, beq_iff_eq, and_assoc]
  constructor
  · intro hn
    unfold validate_header_magic
    rw [if_neg (fun hv => hn (hiff.mp hv))]
  · intro hy
    unfold validate_header_magic
    rw [if_pos (hiff.mpr hy)]

theorem header_magic_validation_witness :
    validate_header_magic [74, 87, 102, 102, 117, 49, 48, 48]
        = .error .badHeaderMagic
      ∧ validate_header_magic [73, 87, 102, 102, 48, 49, 48, 48]
        = .ok () :=
  ⟨(header_magic_validation [74, 87, 102, 102, 117, 49, 48, 48]).1
      (by decide),
   (header_magic_validation [73, 87, 102, 102, 48, 49, 48, 48]).2
      (by decide)⟩

/-- C9 (counterexample): the pass is not fail-fast everywhere.  With the
script-string table `["alpha", "beta"]`, converting the hide-tags list
`[0, 7]` hits a `BadScriptString(7)` error on the second element, yet
the conversion neither aborts nor surfaces it — it substitutes the
default empty string and continues. -/
theorem pass_continues_past_script_string_error :
    script_string_to_string ["alpha", "beta"] 7
        = .error (.badScriptString 7)
      ∧ hide_tags_convert ["alpha", "beta"] [0, 7] = ["alpha", ""] :=
  ⟨rfl, rfl⟩

/-- C9 (amended): within the core primitive readers errors do
propagate — the first failing element read inside a fat-pointer read
aborts the whole read and surfaces unchanged, with nothing substituted —
but the deserializer is not uniformly fail-fast, because the weapon
`hide_tags` conversion replaces a failed script-string dereference with
the default empty string and continues. -/
theorem fat_pointer_first_error_propagates {α : Type}
    (blockSizes : List Nat) (size token : Nat) (elem : DeM α)
    (s : XStream) (blk off : Nat) (e : XErr)
    (h0 : token ≠ 0) (h1 : token ≠ 0xFFFFFFFF) (h2 : token ≠ 0xFFFFFFFE)
    (hres : convert_offset_to_ptr blockSizes token = .ok (blk, off))
    (hlen : off ≤ s.data.length)
    (helem : elem { s with pos := off } = .error e) :
    fatPointerCountFirstU32_to_vec blockSizes (size + 1) token elem s
      = .error e := by
  unfold fatPointerCountFirstU32_to_vec
  rw [if_neg h0]
  unfold seek_and
  rw [if_pos ⟨h1, h2⟩, hres]
  dsimp only
  rw [if_pos hlen]
  unfold readN
  rw [helem]

theorem fat_pointer_first_error_propagates_witness :
    fatPointerCountFirstU32_to_vec [10, 0, 0, 0, 0, 0, 0] 3 6 readByte
        ⟨[1, 2, 3, 4, 5], 0⟩ = .error .panicReadPastEnd :=
  fat_pointer_first_error_propagates [10, 0, 0, 0, 0, 0, 0] 2 6 readByte
    ⟨[1, 2, 3, 4, 5], 0⟩ 0 5 .panicReadPastEnd
    (by decide) (by decide) (by decide) (by decide) (by decide) rfl

/-- C7: the asset dispatcher decodes the `asset_type` word with
`from_u32` and fails with `InvalidXAssetType` carrying the raw value
when it is not a defined variant; on a defined variant it either fails
with `UnusedXAssetType` carrying the variant (for the variants without a
dispatch arm) or invokes exactly the schema reader matching the
variant. -/
theorem xasset_dispatcher_routes :
    (∀ (α : Type) (reader : XAssetType → Except XErr α) (v : Nat),
      xassetTypeFromU32 v = none →
      xasset_deserialize_into reader v = .error (.invalidXAssetType v))
    ∧ (∀ (α : Type) (reader : XAssetType → Except XErr α) (v : Nat)
        (t : XAssetType),
      xassetTypeFromU32 v = some t →
      (xassetTypeIsUsed t = false →
        xasset_deserialize_into reader v = .error (.unusedXAssetType t))
      ∧ (xassetTypeIsUsed t = true →
        xasset_deserialize_into reader v
          = (reader t).map fun a => (t, a))) := by
  constructor
  · intro α reader v hnone
    unfold xasset_deserialize_into
    rw [hnone]
  · intro α reader v t hsome
    unfold xasset_deserialize_into
    rw [hsome]
    constructor
    · intro hunused
      cases t <;> first
        | rfl
        | exact absurd hunused (by simp [xassetTypeIsUsed])
    · intro hused
      cases t <;> first
        | rfl
        | exact absurd hused (by simp [xassetTypeIsUsed])

theorem xasset_dispatcher_routes_witness :
    xasset_deserialize_into (fun _ => Except.ok 7) 0x2D
        = .error (.invalidXAssetType 0x2D)
      ∧ xasset_deserialize_into (fun _ => Except.ok 7) 0x00
        = .error (.unusedXAssetType .XMODELPIECES)
      ∧ xasset_deserialize_into (fun _ => Except.ok 7) 0x24
        = .ok (.RAWFILE, 7) :=
  ⟨xasset_dispatcher_routes.1 Nat (fun _ => Except.ok 7) 0x2D rfl,
   ((xasset_dispatcher_routes.2 Nat (fun _ => Except.ok 7) 0x00
      .XMODELPIECES rfl).1 rfl),
   ((xasset_dispatcher_routes.2 Nat (fun _ => Except.ok 7) 0x24
      .RAWFILE rfl).2 rfl)⟩
